import Mathlib

/-!
Verification of the frame broadcast engine of pi-camera-stream.

The Go program (src/main.go) captures MJPEG frames from a V4L2 device and
fans them out to HTTP viewers.  Each viewer owns a buffered Go channel of
capacity 30 (`make(ClientChan, 30)`); the broadcaster goroutine sends each
frame to every registered channel with a non-blocking
`select { case ch <- frame: default: }`.  The registry is the global map
`clients` guarded by `clientsMutex`.  An older revision of the program
(src/unnamed/part_000, second variant) additionally pipes every frame into
an ffmpeg subprocess before fanning out.

This file embeds those functions shallowly: Go byte slices become
`List Nat`, a buffered channel becomes a capacity plus a FIFO list, and the
goroutine loops become step functions folded over the frame sequence.
-/

namespace PiCam

/-- A frame is one complete encoded image: an opaque byte sequence
(Go `[]byte`). -/
abbrev Frame := List Nat

/-- Capacity of each per-client channel, from `make(ClientChan, 30)` at
main.go line 81. -/
def clientChanCapacity : Nat := 30

/-- A buffered Go channel, modelled as its capacity and its FIFO buffer
(index 0 is the oldest queued frame, the next one a receive would take). -/
structure BoundedChan where
  capacity : Nat
  buffer : List Frame
deriving Repr, DecidableEq

/-- Non-blocking send, `select { case ch <- frame: default: }`
(main.go lines 62 to 66): if the buffer has free capacity the frame is
appended at the back, otherwise the send is skipped and the channel is
unchanged.  (A buffered Go channel also accepts a send when a receiver is
blocked, but a receiver can only block on an empty buffer, and an empty
buffer is below the capacity 30, so the capacity test is exact.) -/
def trySend (ch : BoundedChan) (f : Frame) : BoundedChan :=
  if ch.buffer.length < ch.capacity then { ch with buffer := ch.buffer ++ [f] } else ch

/-- The viewer registry: the Go map `clients`, modelled as an association
list from an opaque per-connection token to that viewer's channel. -/
abbrev Registry := List (Nat × BoundedChan)

/-- The fan-out loop of `frameBroadcaster` (main.go lines 61 to 67): one
non-blocking send of the frame to every registered client channel. -/
def publish (clients : Registry) (f : Frame) : Registry :=
  clients.map (fun c => (c.1, trySend c.2 f))

/-- Observable effect of one iteration of the `frameBroadcaster` loop body. -/
structure BroadcastEffect where
  clients : Registry
  loggedEmpty : Bool
  restartTriggered : Bool
deriving Repr, DecidableEq

/-- One iteration of the `frameBroadcaster` loop body (main.go lines 53 to
68): a zero-length frame is logged and skipped with `continue`; any other
frame is fanned out with `publish`.  The loop body contains no call to
`restartCamera` and no state transition, so `restartTriggered` is false on
every path. -/
def frameBroadcasterStep (clients : Registry) (f : Frame) : BroadcastEffect :=
  if f.length = 0 then ⟨clients, true, false⟩
  else ⟨publish clients f, false, false⟩

/-- Atomic operations on the shared registry, for the lock-hold analysis
of `clientsMutex`. -/
inductive LockOp where
  | lock
  | unlock
  | enqueueAttempt (viewer : Nat)
  | mapInsert (viewer : Nat)
  | mapDelete (viewer : Nat)
deriving Repr, DecidableEq

/-- Micro-step trace of the fan-out in `frameBroadcaster` (main.go lines
60 to 68): `clientsMutex.Lock()` precedes the for loop, the non-blocking
send to every registered viewer happens inside the loop, and
`clientsMutex.Unlock()` follows the loop. -/
def publishTrace (viewers : List Nat) : List LockOp :=
  [LockOp.lock] ++ viewers.map LockOp.enqueueAttempt ++ [LockOp.unlock]

/-- Micro-step trace of viewer registration in `imageServ` (main.go lines
82 to 84): lock, map insert, unlock. -/
def registerTrace (v : Nat) : List LockOp :=
  [LockOp.lock, LockOp.mapInsert v, LockOp.unlock]

/-- Micro-step trace of viewer removal in the `imageServ` deferred
function (main.go lines 87 to 89): lock, map delete, unlock. -/
def removeTrace (v : Nat) : List LockOp :=
  [LockOp.lock, LockOp.mapDelete v, LockOp.unlock]

/-- Lock state after executing one operation from the given held state. -/
def opHolds (held : Bool) (op : LockOp) : Bool :=
  match op with
  | LockOp.lock => true
  | LockOp.unlock => false
  | _ => held

/-- Pair every operation of a trace with whether the mutex is held at the
moment the operation executes, starting from the given held state. -/
def heldDuringAux : Bool → List LockOp → List (LockOp × Bool)
  | _, [] => []
  | held, op :: rest => (op, held) :: heldDuringAux (opHolds held op) rest

/-- Lock-hold annotation of a trace started with the mutex free. -/
def heldDuring (t : List LockOp) : List (LockOp × Bool) := heldDuringAux false t

/-- Result of one attempt to open and start the camera (`setupCamera`,
main.go lines 32 to 47): the device handle on success, or a failure of
`device.Open` or `camera.Start`. -/
inductive SetupResult where
  | ok (handle : Nat)
  | fail
deriving Repr, DecidableEq

/-- Whether a `setupCamera` attempt failed. -/
def SetupResult.failed : SetupResult → Bool
  | .ok _ => false
  | .fail => true

/-- `restartCamera` (main.go lines 126 to 135): close the current handle
if any, then call `setupCamera` again; a reopen failure is only passed to
`log.Printf`, leaving the global `cameraDevice` nil.  The result is the
new `cameraDevice` together with whether the process terminated (it never
does on this path). -/
def restartCamera (reopen : SetupResult) : Option Nat × Bool :=
  match reopen with
  | .ok d => (some d, false)
  | .fail => (none, false)

/-- Startup in `main` (main.go lines 205 to 210): a failure of the very
first `setupCamera` hits `log.Fatalf`, which prints a diagnostic and
terminates the process.  The result is whether the process terminated. -/
def mainStartupTerminates (first : SetupResult) : Bool := first.failed

/-- Handler of POST /restart, `resetCameraWeb` (main.go lines 72 to 76):
calls `restartCamera` and then unconditionally writes the confirmation
body to the response. -/
def resetCameraWeb (reopen : SetupResult) : (Option Nat × Bool) × String :=
  (restartCamera reopen, "Camera restarted.")

/-- State of the broadcaster loop of the older ffmpeg-sink revision
(src/unnamed/part_000, second variant, lines 287 to 320): the shared
`encodedFrameChan` of capacity 10 feeding the viewers, and whether the
loop has executed its `return`. -/
structure FfmpegLoopState where
  encodedFrameChan : BoundedChan
  stopped : Bool
deriving Repr, DecidableEq

/-- Initial state: `encodedFrameChan = make(chan []byte, 10)`, loop
running. -/
def ffmpegInit : FfmpegLoopState := ⟨⟨10, []⟩, false⟩

/-- One iteration of the ffmpeg-sink broadcaster loop for frame `f`,
where `sinkOk f` tells whether `ffmpegIn.Write(frame)` succeeded.  An
empty frame is logged and skipped; a failed sink write logs and executes
`return`, exiting the whole broadcaster loop; otherwise the frame is sent
non-blockingly to `encodedFrameChan`.  (The wall-clock restart branch at
lines 310 to 319 touches only the camera device, not this state.)  After
the `return`, no further frame is processed. -/
def ffmpegBroadcasterStep (sinkOk : Frame → Bool) (s : FfmpegLoopState) (f : Frame) :
    FfmpegLoopState :=
  if s.stopped then s
  else if f.length = 0 then s
  else if sinkOk f then { s with encodedFrameChan := trySend s.encodedFrameChan f }
  else { s with stopped := true }

/-- Run the ffmpeg-sink broadcaster over a frame sequence. -/
def ffmpegBroadcasterRun (sinkOk : Frame → Bool) (fs : List Frame) : FfmpegLoopState :=
  fs.foldl (ffmpegBroadcasterStep sinkOk) ffmpegInit

/-- The incarnation view of the camera system in main.go.  The
broadcaster goroutine evaluates `frames := cameraDevice.GetOutput()` once
at line 52, before its loop, so it is permanently bound to the output
channel of the device incarnation current at that moment;
`restartCamera` replaces the global `cameraDevice` with a freshly opened
device but never touches that local channel, and never touches the
`clients` registry. -/
structure CameraSystem where
  currentIncarnation : Nat
  broadcasterChan : Nat
  clients : Registry
deriving Repr, DecidableEq

/-- System right after `main` starts `frameBroadcaster`: device
incarnation 0, broadcaster bound to incarnation 0's output channel. -/
def startSystem (cs : Registry) : CameraSystem := ⟨0, 0, cs⟩

/-- Effect of `restartCamera` (main.go lines 126 to 135) on the system:
the old handle is closed and a new device incarnation opened; neither the
broadcaster's captured channel nor the clients registry changes. -/
def restartCameraSystem (s : CameraSystem) : CameraSystem :=
  { s with currentIncarnation := s.currentIncarnation + 1 }

/-- A frame produced by device incarnation `producedBy` is sent on that
incarnation's own output channel, so the broadcaster loop receives it iff
that is the incarnation whose channel it captured at start; only received
frames ever reach the fan-out. -/
def broadcasterReceivesFrom (s : CameraSystem) (producedBy : Nat) : Bool :=
  producedBy == s.broadcasterChan

/-- State of the viewer registry with channel-lifetime bookkeeping:
`nextToken` is the next fresh per-connection token (every `imageServ`
call creates a brand-new channel with `make`), `registered` the tokens
currently in the `clients` map, `closedChans` the tokens whose channel
has been closed. -/
structure RegLifeState where
  nextToken : Nat
  registered : List Nat
  closedChans : List Nat
deriving Repr, DecidableEq

/-- The registry at program start: the `clients` map is created empty and
no channel has been allocated or closed. -/
def regLifeInit : RegLifeState := ⟨0, [], []⟩

/-- Transitions of the registry exactly as the code performs them.
`register` (main.go lines 81 to 84): a fresh channel is created and
inserted under the lock.  `remove` (main.go lines 87 to 89): the deferred
function deletes the channel from the map under the lock.  `closeChan`
(main.go line 90): `close(clientChan)` runs after the delete of the same
token inside the same deferred function, so the closed channel is an
already-allocated token (`v < nextToken`) that is no longer registered
(`v ∉ registered`). -/
inductive RegStep : RegLifeState → RegLifeState → Prop where
  | register (s : RegLifeState) :
      RegStep s ⟨s.nextToken + 1, s.nextToken :: s.registered, s.closedChans⟩
  | remove (s : RegLifeState) (v : Nat) :
      RegStep s ⟨s.nextToken, s.registered.erase v, s.closedChans⟩
  | closeChan (s : RegLifeState) (v : Nat)
      (hv : v ∉ s.registered) (hlt : v < s.nextToken) :
      RegStep s ⟨s.nextToken, s.registered, v :: s.closedChans⟩

/-- Registry states reachable from program start through the code's
transitions. -/
def RegReachable (s : RegLifeState) : Prop :=
  Relation.ReflTransGen RegStep regLifeInit s

/-- The registry bookkeeping invariant: no duplicate tokens, every token
allocated, and no registered token has a closed channel. -/
def regInv (s : RegLifeState) : Prop :=
  s.registered.Nodup ∧
  (∀ v ∈ s.registered, v < s.nextToken) ∧
  (∀ v ∈ s.closedChans, v < s.nextToken) ∧
  (∀ v ∈ s.registered, v ∉ s.closedChans)

end PiCam

namespace PiCam

/-- History of one viewer session: the events touching that viewer's
channel while it is registered.  `pub f` is one `frameBroadcaster`
iteration fanning out the (nonempty) frame `f`; `deq` is one iteration of
the `imageServ` loop (main.go lines 102 to 118) receiving the next queued
frame and writing it as a multipart part. -/
inductive VEvent where
  | pub (f : Frame)
  | deq
deriving Repr, DecidableEq

/-- Per-viewer observable state: the channel, the frames the session has
dequeued and written to the connection (in order), and the frames passed
to `publish` while the viewer was registered (in capture order). -/
structure VState where
  queue : BoundedChan
  delivered : List Frame
  published : List Frame
deriving Repr, DecidableEq

/-- One event of a viewer session.  A publish is the non-blocking
`trySend`; a dequeue takes the oldest buffered frame (Go channel receive)
and appends it to the delivered sequence, and does nothing when the buffer
is empty (the session is blocked in the select). -/
def vstep (s : VState) (e : VEvent) : VState :=
  match e with
  | .pub f => { s with queue := trySend s.queue f, published := s.published ++ [f] }
  | .deq =>
    match s.queue.buffer with
    | [] => s
    | f :: rest =>
      { queue := { s.queue with buffer := rest },
        delivered := s.delivered ++ [f],
        published := s.published }

/-- A fresh viewer session: empty channel of capacity 30, nothing
delivered, nothing yet published while registered. -/
def vinit : VState := ⟨⟨clientChanCapacity, []⟩, [], []⟩

/-- Run a viewer session over a list of events. -/
def vrun (evs : List VEvent) : VState := evs.foldl vstep vinit

/-- The session invariant: the frames already written to the connection,
followed by the frames still buffered in the channel, form a subsequence
of the published capture-order sequence. -/
def vinv (s : VState) : Prop :=
  List.Sublist (s.delivered ++ s.queue.buffer) s.published

lemma vstep_inv (s : VState) (e : VEvent) (h : vinv s) : vinv (vstep s e) := by
  cases e with
  | pub f =>
    by_cases hcap : s.queue.buffer.length < s.queue.capacity
    · have : (s.delivered ++ (s.queue.buffer ++ [f])).Sublist (s.published ++ [f]) := by
        rw [← List.append_assoc]
        exact List.Sublist.append h (List.Sublist.refl [f])
      simpa [vinv, vstep, trySend, hcap] using this
    · have : (s.delivered ++ s.queue.buffer).Sublist (s.published ++ [f]) :=
        h.trans (List.sublist_append_left s.published [f])
      simpa [vinv, vstep, trySend, hcap] using this
  | deq =>
    unfold vinv vstep
    cases hbuf : s.queue.buffer with
    | nil => simpa [vinv] using h
    | cons f rest =>
      simp only []
      have : s.delivered ++ [f] ++ rest = s.delivered ++ s.queue.buffer := by
        rw [hbuf, List.append_assoc, List.singleton_append]
      rw [this]
      exact h

lemma vrun_inv_aux (evs : List VEvent) (s : VState) (h : vinv s) :
    vinv (evs.foldl vstep s) := by
  induction evs generalizing s with
  | nil => exact h
  | cons e rest ih => exact ih (vstep s e) (vstep_inv s e h)

/-- C2: over any interleaving of publishes and dequeues, the sequence of
frames a viewer session dequeues and writes to its connection is a
(possibly sparse) subsequence of the capture-order sequence published
while the viewer was registered: no reordering and no duplication. -/
theorem viewer_receives_subsequence (evs : List VEvent) :
    List.Sublist (vrun evs).delivered (vrun evs).published := by
  have hinv : vinv (vrun evs) := vrun_inv_aux evs vinit (by simp [vinv, vinit])
  exact (List.sublist_append_left (vrun evs).delivered (vrun evs).queue.buffer).trans hinv

/-- C1: for every frame and every registered viewer channel, `publish`
performs a non-blocking enqueue: the viewer's channel appears in the
result with the frame appended when there was free capacity, and entirely
unchanged (no eviction of the oldest frame) when the buffer was full. -/
theorem publish_nonblocking_drop_policy (clients : Registry) (f : Frame)
    (id : Nat) (ch : BoundedChan) (h : (id, ch) ∈ clients) :
    (id, trySend ch f) ∈ publish clients f ∧
    (ch.buffer.length < ch.capacity →
      (trySend ch f).buffer = ch.buffer ++ [f] ∧ (trySend ch f).capacity = ch.capacity) ∧
    (¬ ch.buffer.length < ch.capacity → trySend ch f = ch) := by
  refine ⟨?_, ?_, ?_⟩
  · have := List.mem_map_of_mem (fun c : Nat × BoundedChan => (c.1, trySend c.2 f)) h
    simpa [publish] using this
  · intro hlt
    simp [trySend, hlt]
  · intro hge
    simp [trySend, hge]

/-- Witness for C1 at a concrete input: one registered viewer with an
empty channel of capacity 30 receives the frame. -/
theorem publish_nonblocking_drop_policy_witness :
    ((0, trySend ⟨30, []⟩ [1]) ∈ publish [(0, ⟨30, []⟩)] [1]) ∧
    (([] : List Frame).length < 30 →
      (trySend ⟨30, []⟩ [1]).buffer = [] ++ [[1]] ∧ (trySend ⟨30, []⟩ [1]).capacity = 30) ∧
    (¬ ([] : List Frame).length < 30 → trySend ⟨30, []⟩ [1] = ⟨30, []⟩) :=
  publish_nonblocking_drop_policy [(0, ⟨30, []⟩)] [1] 0 ⟨30, []⟩ (by simp)

/-- C7: a zero-length frame is dropped and logged without a lifecycle
transition: the step leaves every viewer channel unchanged, records the
log-and-skip, and triggers no restart. -/
theorem empty_frame_skipped (clients : Registry) (f : Frame) (h : f.length = 0) :
    frameBroadcasterStep clients f = ⟨clients, true, false⟩ := by
  simp [frameBroadcasterStep, h]

/-- Witness for C7 at the concrete empty frame with one registered viewer. -/
theorem empty_frame_skipped_witness :
    frameBroadcasterStep [(0, ⟨30, [[7]]⟩)] [] = ⟨[(0, ⟨30, [[7]]⟩)], true, false⟩ :=
  empty_frame_skipped [(0, ⟨30, [[7]]⟩)] [] (by simp)

/-- C9: publishing with zero registered viewers is a safe no-op: the
broadcaster step is total (never panics or blocks in the model), the
resulting registry is still empty, no restart fires, and no component of
the state retains the frame. -/
theorem publish_zero_viewers_noop (f : Frame) :
    publish [] f = [] ∧
    (frameBroadcasterStep [] f).clients = [] ∧
    (frameBroadcasterStep [] f).restartTriggered = false := by
  refine ⟨rfl, ?_, ?_⟩ <;> by_cases h : f.length = 0 <;>
    simp [frameBroadcasterStep, publish, h]

/-- C5 counterexample: with a single registered viewer, the enqueue
attempt of `publish` executes while `clientsMutex` is held — the lock IS
held across an enqueue attempt, refuting the claim at this concrete
input. -/
theorem lock_held_during_enqueue_counterexample :
    (LockOp.enqueueAttempt 0, true) ∈ heldDuring (publishTrace [0]) := by
  decide

lemma enqueue_held_of_mem (viewers : List Nat) (v : Nat) (h : v ∈ viewers) :
    (LockOp.enqueueAttempt v, true) ∈
      heldDuringAux true (viewers.map LockOp.enqueueAttempt ++ [LockOp.unlock]) := by
  induction viewers with
  | nil => cases h
  | cons w ws ih =>
    rcases List.mem_cons.mp h with hv | hv
    · subst hv
      simp [heldDuringAux, opHolds]
    · simp only [List.map_cons, List.cons_append, heldDuringAux, opHolds]
      exact List.mem_cons_of_mem _ (ih hv)

/-- C5 amended: `publish` holds the registry mutex across its entire
fan-out loop, so every enqueue attempt executes with the lock held; only
registration and removal in `imageServ` hold the lock for just the O(1)
map mutation, so they are serialized behind a full fan-out pass (which is
bounded, every enqueue being non-blocking). -/
theorem lock_held_across_fanout (viewers : List Nat) (v : Nat) (h : v ∈ viewers) :
    (LockOp.enqueueAttempt v, true) ∈ heldDuring (publishTrace viewers) ∧
    heldDuring (registerTrace v) =
      [(LockOp.lock, false), (LockOp.mapInsert v, true), (LockOp.unlock, true)] ∧
    heldDuring (removeTrace v) =
      [(LockOp.lock, false), (LockOp.mapDelete v, true), (LockOp.unlock, true)] := by
  refine ⟨?_, rfl, rfl⟩
  simp only [heldDuring, publishTrace, List.cons_append, List.nil_append,
    heldDuringAux, opHolds]
  exact List.mem_cons_of_mem _ (enqueue_held_of_mem viewers v h)

/-- Witness for the amended C5 at one registered viewer. -/
theorem lock_held_across_fanout_witness :
    (LockOp.enqueueAttempt 0, true) ∈ heldDuring (publishTrace [0]) ∧
    heldDuring (registerTrace 0) =
      [(LockOp.lock, false), (LockOp.mapInsert 0, true), (LockOp.unlock, true)] ∧
    heldDuring (removeTrace 0) =
      [(LockOp.lock, false), (LockOp.mapDelete 0, true), (LockOp.unlock, true)] :=
  lock_held_across_fanout [0] 0 (by simp)

/-- C6: the process terminates with a diagnostic exactly when the first
startup open of the capture device fails; a reopen failure inside
`restartCamera` never terminates the process, and after it there is no
device handle, so no new frames are produced until a later successful
reopen. -/
theorem startup_fatal_reopen_logged (first reopen : SetupResult) :
    (mainStartupTerminates first = true ↔ first = SetupResult.fail) ∧
    (restartCamera reopen).2 = false ∧
    (restartCamera SetupResult.fail).1 = none := by
  refine ⟨?_, ?_, rfl⟩
  · cases first <;> simp [mainStartupTerminates, SetupResult.failed]
  · cases reopen <;> simp [restartCamera]

/-- C10: POST /restart responds with the confirmation body
"Camera restarted." whether or not the reopen inside `restartCamera`
succeeded: the response is identical in the success and failure cases. -/
theorem restart_endpoint_uniform_response (reopen : SetupResult) :
    (resetCameraWeb reopen).2 = "Camera restarted." ∧
    (resetCameraWeb reopen).2 = (resetCameraWeb SetupResult.fail).2 :=
  ⟨rfl, rfl⟩

/-- C3 counterexample: run the ffmpeg-sink broadcaster on the concrete
frames [1] then [2] with every sink write failing.  The claim says the
broadcaster keeps pulling and fanning out after the sink failure, so [2]
should reach the viewer channel (which has 10 free slots); instead the
loop has returned and the channel stays empty. -/
theorem sink_failure_stops_fanout_counterexample :
    ¬ [2] ∈ (ffmpegBroadcasterRun (fun _ => false) [[1], [2]]).encodedFrameChan.buffer ∧
    (ffmpegBroadcasterRun (fun _ => false) [[1], [2]]).stopped = true := by
  constructor
  · decide
  · rfl

/-- C3 amended: a failed write of a nonempty frame to the ffmpeg sink
terminates the broadcaster loop (the `return` at part_000 line 300), and
once the loop has returned no later frame is pulled from the source or
fanned out to the viewer channel. -/
theorem sink_failure_terminates_broadcaster (sinkOk : Frame → Bool)
    (s : FfmpegLoopState) (f : Frame) (fs : List Frame) :
    (s.stopped = false → f.length ≠ 0 → sinkOk f = false →
      ffmpegBroadcasterStep sinkOk s f = { s with stopped := true }) ∧
    (s.stopped = true → fs.foldl (ffmpegBroadcasterStep sinkOk) s = s) := by
  constructor
  · intro hrun hne hfail
    simp [ffmpegBroadcasterStep, hrun, hne, hfail]
  · intro hstop
    induction fs with
    | nil => rfl
    | cons g gs ih =>
      have hg : ffmpegBroadcasterStep sinkOk s g = s := by
        simp [ffmpegBroadcasterStep, hstop]
      simpa [hg] using ih

/-- Witness for the amended C3: a failing sink write on frame [1] stops
the fresh loop, and a stopped loop ignores the subsequent frame [2]. -/
theorem sink_failure_terminates_broadcaster_witness :
    ffmpegBroadcasterStep (fun _ => false) ffmpegInit [1] =
      { ffmpegInit with stopped := true } ∧
    List.foldl (ffmpegBroadcasterStep (fun _ => false)) ⟨⟨10, []⟩, true⟩ [[2]] =
      ⟨⟨10, []⟩, true⟩ :=
  ⟨(sink_failure_terminates_broadcaster (fun _ => false) ffmpegInit [1] []).1
      rfl (by decide) rfl,
   (sink_failure_terminates_broadcaster (fun _ => false) ⟨⟨10, []⟩, true⟩ [1] [[2]]).2 rfl⟩

lemma restartCameraSystem_iterate (cs : Registry) (k : Nat) :
    restartCameraSystem^[k] (startSystem cs) = ⟨k, 0, cs⟩ := by
  induction k with
  | zero => rfl
  | succ n ih => rw [Function.iterate_succ_apply', ih]; rfl

/-- C4 (code evaluated at the failing scenario): after any positive
number of restarts, the previously-registered viewers are all still
registered, yet the broadcaster never receives any frame produced by the
current (new) device incarnation — `frames := cameraDevice.GetOutput()`
was evaluated once, so the loop still ranges over the old incarnation's
channel and never publishes a new-incarnation frame. -/
theorem restart_starves_registered_viewers (cs : Registry) (k : Nat) (h : 0 < k) :
    broadcasterReceivesFrom (restartCameraSystem^[k] (startSystem cs))
      ((restartCameraSystem^[k] (startSystem cs)).currentIncarnation) = false ∧
    (restartCameraSystem^[k] (startSystem cs)).clients = cs := by
  rw [restartCameraSystem_iterate]
  refine ⟨?_, rfl⟩
  simp only [broadcasterReceivesFrom, beq_eq_false_iff_ne, ne_eq]
  omega

/-- Witness for C4's theorem: one registered viewer, one restart. -/
theorem restart_starves_registered_viewers_witness :
    broadcasterReceivesFrom (restartCameraSystem^[1] (startSystem [(0, ⟨30, []⟩)]))
      ((restartCameraSystem^[1] (startSystem [(0, ⟨30, []⟩)])).currentIncarnation) = false ∧
    (restartCameraSystem^[1] (startSystem [(0, ⟨30, []⟩)])).clients = [(0, ⟨30, []⟩)] :=
  restart_starves_registered_viewers [(0, ⟨30, []⟩)] 1 (by decide)

lemma regInv_init : regInv regLifeInit := by
  refine ⟨List.nodup_nil, ?_, ?_, ?_⟩ <;> intro v hv <;> cases hv

lemma regStep_inv {s t : RegLifeState} (hst : RegStep s t) (h : regInv s) : regInv t := by
  obtain ⟨hnd, hreg, hcl, hdisj⟩ := h
  cases hst with
  | register =>
    refine ⟨?_, ?_, ?_, ?_⟩
    · exact List.nodup_cons.mpr ⟨fun hm => Nat.lt_irrefl _ (hreg _ hm), hnd⟩
    · intro v hv
      rcases List.mem_cons.mp hv with hv | hv
      · subst hv
        exact Nat.lt_succ_self _
      · exact Nat.lt_succ_of_lt (hreg v hv)
    · intro v hv
      exact Nat.lt_succ_of_lt (hcl v hv)
    · intro v hv
      rcases List.mem_cons.mp hv with hv | hv
      · subst hv
        intro hmem
        exact Nat.lt_irrefl _ (hcl _ hmem)
      · exact hdisj v hv
  | remove v =>
    refine ⟨hnd.erase v, ?_, hcl, ?_⟩
    · intro w hw
      exact hreg w (List.mem_of_mem_erase hw)
    · intro w hw
      exact hdisj w (List.mem_of_mem_erase hw)
  | closeChan v hv hlt =>
    refine ⟨hnd, hreg, ?_, ?_⟩
    · intro w hw
      rcases List.mem_cons.mp hw with hw | hw
      · subst hw
        exact hlt
      · exact hcl w hw
    · intro w hw
      intro hmem
      rcases List.mem_cons.mp hmem with hmem | hmem
      · subst hmem
        exact hv hw
      · exact hdisj w hw hmem

lemma regReachable_inv (s : RegLifeState) (h : RegReachable s) : regInv s := by
  induction h with
  | refl => exact regInv_init
  | tail _ hstep ih => exact regStep_inv hstep ih

/-- C8: in every reachable registry state, every registered viewer's
channel is still live (its token is removed from the registry before its
channel is closed, so a registered token is never among the closed ones,
and `publish`, which only targets registered channels, never sends on a
closed channel), and no viewer token is registered twice concurrently. -/
theorem registry_live_queue_invariant (s : RegLifeState) (h : RegReachable s) :
    (∀ v ∈ s.registered, v ∉ s.closedChans) ∧ s.registered.Nodup :=
  ⟨(regReachable_inv s h).2.2.2, (regReachable_inv s h).1⟩

/-- Witness for C8: the state after connect, disconnect (delete then
close) and a second connect is reachable and satisfies the invariant. -/
theorem registry_live_queue_invariant_witness :
    (∀ v ∈ ([1] : List Nat), v ∉ ([0] : List Nat)) ∧ ([1] : List Nat).Nodup := by
  have r1 : RegReachable ⟨1, [0], []⟩ :=
    Relation.ReflTransGen.single (RegStep.register regLifeInit)
  have r2 : RegReachable ⟨1, [], []⟩ :=
    r1.tail (RegStep.remove ⟨1, [0], []⟩ 0)
  have r3 : RegReachable ⟨1, [], [0]⟩ :=
    r2.tail (RegStep.closeChan ⟨1, [], []⟩ 0 (by simp) (by decide))
  have r4 : RegReachable ⟨2, [1], [0]⟩ :=
    r3.tail (RegStep.register ⟨1, [], [0]⟩)
  exact registry_live_queue_invariant ⟨2, [1], [0]⟩ r4

end PiCam
